import Mathlib

/-!
Shallow embedding of `tron/scheduler.py`: the day/month name tables, the
groc schedule grammar and parser, and the three scheduler policies
(Constant, Groc/calendar, Interval).  Python dictionaries are modelled as
association lists with last-write-wins lookup, Python sets as `Finset Nat`,
Python exceptions as an explicit `Except` error type, and `datetime`
instants as integers.  The external time-specification matcher
(`SpecificTimeSpecification.GetMatch`) and the process clock
(`timeutils.current_time`) are passed in as parameters.
-/

namespace Tron

/-- Instants (datetime values) are modelled as integers (e.g. epoch seconds). -/
abbrev Instant := Int

instance exceptDecidableEq {ε α : Type} [DecidableEq ε] [DecidableEq α] :
    DecidableEq (Except ε α) := fun a b =>
  match a, b with
  | .error e, .error f => decidable_of_iff (e = f) (by simp)
  | .ok x, .ok y => decidable_of_iff (x = y) (by simp)
  | .error _, .ok _ => isFalse (by simp)
  | .ok _, .error _ => isFalse (by simp)

/-- Python exception classes that the scheduler code can raise.
`parseError` is included because the specification names it; the source
itself never raises it. -/
inductive PyExc
  | parseError
  | attributeError
  | keyError
  | valueError
deriving DecidableEq

/-- External JobRun entity: a mutable run-time field, `none` until set. -/
structure JobRun where
  run_time : Option Instant
deriving DecidableEq

/-- `JobRun.set_run_time`: assign the run time. -/
def JobRun.set_run_time (r : JobRun) (t : Instant) : JobRun :=
  { r with run_time := some t }

/-- External Job entity: run history (newest first), the pending runs that
`build_runs()` materializes, the `next_to_finish()` observation, and the two
policy flags. -/
structure Job where
  runs : List JobRun
  build_runs : List JobRun
  next_to_finish : Bool
  constant : Bool
  queueing : Bool
deriving DecidableEq

/-- Models Python `str.lower()` (ASCII, as used by the scheduler strings). -/
def pyLower (s : String) : String :=
  String.mk (s.toList.map Char.toLower)

/-- Models Python `str.upper()`. -/
def pyUpper (s : String) : String :=
  String.mk (s.toList.map Char.toUpper)

/-- Models Python `str.split(sep)` for a one-character separator:
`"" -> [""]`, `"a," -> ["a", ""]`. -/
def splitChar (sep : Char) : List Char → List (List Char)
  | [] => [[]]
  | c :: cs =>
    let rest := splitChar sep cs
    if c = sep then [] :: rest
    else
      match rest with
      | r :: rs => (c :: r) :: rs
      | [] => [[c]]

/-- `str.split` lifted to `String`. -/
def pySplit (sep : Char) (s : String) : List String :=
  (splitChar sep s.toList).map String.mk

/-- Models Python `str.strip()`. -/
def pyStrip (s : String) : String :=
  String.mk (((s.toList.dropWhile Char.isWhitespace).reverse.dropWhile
    Char.isWhitespace).reverse)

/-- Models Python `','.join(items)`. -/
def joinComma : List String → String
  | [] => ""
  | [s] => s
  | s :: rest => s ++ "," ++ joinComma rest

/-- Decimal digit characters of a natural number (fuel-driven so that the
kernel can evaluate it). -/
def natDigits : Nat → Nat → List Char
  | 0, _ => []
  | _ + 1, 0 => []
  | f + 1, n => natDigits f (n / 10) ++ [Char.ofNat (48 + n % 10)]

/-- Decimal rendering of a natural number. -/
def natToStr (n : Nat) : String :=
  if n = 0 then "0" else String.mk (natDigits (n + 1) n)

/-- Models the Python format `'%02d' % n`. -/
def pad2 (n : Nat) : String :=
  if n < 10 then "0" ++ natToStr n else natToStr n

/-- A Python dict with string keys and int values, as an insertion list;
`dictInsert` prepends, so the first hit on lookup is the last write. -/
abbrev PyDict := List (String × Nat)

/-- Dict assignment `d[k] = v` (last write wins under `dictGet`). -/
def dictInsert (d : PyDict) (k : String) (v : Nat) : PyDict :=
  (k, v) :: d

/-- Dict lookup `d[k]`, `none` when the key is missing (Python `KeyError`). -/
def dictGet (d : PyDict) (k : String) : Option Nat :=
  (d.find? (fun p => p.1 == k)).map (fun p => p.2)

/-- `WEEK = 'mtwrfsu'`. -/
def WEEK : List Char := ['m', 't', 'w', 'r', 'f', 's', 'u']

/-- `calendar.day_name`: Python's calendar module starts the week at Monday. -/
def day_name : List String :=
  ["Monday", "Tuesday", "Wednesday", "Thursday", "Friday", "Saturday", "Sunday"]

/-- `calendar.day_abbr`. -/
def day_abbr : List String :=
  ["Mon", "Tue", "Wed", "Thu", "Fri", "Sat", "Sun"]

/-- The two-letter weekday codes from the source's literal tuple. -/
def day_codes2 : List String :=
  ["mo", "tu", "we", "th", "fr", "sa", "su"]

/-- `calendar.month_name[1:]`. -/
def month_name : List String :=
  ["January", "February", "March", "April", "May", "June", "July",
   "August", "September", "October", "November", "December"]

/-- `calendar.month_abbr[1:]`. -/
def month_abbr : List String :=
  ["Jan", "Feb", "Mar", "Apr", "May", "Jun", "Jul", "Aug", "Sep", "Oct",
   "Nov", "Dec"]

/-- One iteration of the inner loop building `CONVERT_DAYS_INT`:
`d[key] = v; d[key.lower()] = v; d[key.upper()] = v`. -/
def insertDayKeys (d : PyDict) (key : String) (v : Nat) : PyDict :=
  dictInsert (dictInsert (dictInsert d key v) (pyLower key) v) (pyUpper key) v

/-- `CONVERT_DAYS_INT`: day name/abbreviation/code (original, lower and upper
case) to `0..6`, built from `calendar.day_name`, `calendar.day_abbr`, `WEEK`
and the two-letter codes, each zipped with `range(7)`. -/
def CONVERT_DAYS_INT : PyDict :=
  [day_name, day_abbr, WEEK.map (fun c => String.mk [c]), day_codes2].foldl
    (fun d dl =>
      (dl.zip (List.range 7)).foldl (fun d2 p => insertDayKeys d2 p.1 p.2) d)
    []

/-- `CONVERT_MONTHS`: month name/abbreviation (original and lower case only;
the source never inserts upper-case month keys) to `1..12`. -/
def CONVERT_MONTHS : PyDict :=
  [month_name, month_abbr].foldl
    (fun d ml =>
      (ml.zip (List.range' 1 12)).foldl
        (fun d2 p => dictInsert (dictInsert d2 p.1 p.2) (pyLower p.1) p.2) d)
    []

/-- `DAY_VALUES`: the day-token alternatives of the grammar
(`CONVERT_DAYS.keys() + ['day']`; `CONVERT_DAYS` has the same key set as
`CONVERT_DAYS_INT`). -/
def DAY_VALUES : List String :=
  CONVERT_DAYS_INT.map (fun p => p.1) ++ ["day"]

/-- `MONTH_VALUES`: the month-token alternatives
(`CONVERT_MONTHS.keys() + ['month']`). -/
def MONTH_VALUES : List String :=
  CONVERT_MONTHS.map (fun p => p.1) ++ ["month"]

/-- Strip a literal pattern from the front of a character list. -/
def dropLeadChars : List Char → List Char → Option (List Char)
  | [], s => some s
  | _ :: _, [] => none
  | p :: ps, c :: cs => if p = c then dropLeadChars ps cs else none

/-- Strip a literal string from the front of a character list. -/
def dropLead (p : String) (s : List Char) : Option (List Char) :=
  dropLeadChars p.toList s

/-- Length of the longest token of `toks` that is a prefix of `s`.
The regex alternation built from the (unordered) Python dict keys is
resolved longest-token-first; for these token sets the anchored overall
match is insensitive to the alternation order. -/
def bestTokLen (toks : List String) (s : List Char) : Option Nat :=
  toks.foldl
    (fun best t =>
      let tl := t.toList
      if tl.isPrefixOf s then
        match best with
        | none => some tl.length
        | some b => if b < tl.length then some tl.length else some b
      else best)
    none

/-- Characters consumed by the greedy run `((tok),?)+` of the grammar:
repeat token, each optionally followed by a comma; `0` means the run (and
hence the optional group) is absent. -/
def tokRunLen (toks : List String) : Nat → List Char → Nat
  | 0, _ => 0
  | fuel + 1, s =>
    match bestTokLen toks s with
    | none => 0
    | some n =>
      match s.drop n with
      | ',' :: s2 => n + 1 + tokRunLen toks fuel s2
      | _ => n + tokRunLen toks fuel (s.drop n)

/-- The ordinal suffixes `st|nd|rd|th`. -/
def ordSuffixes : List String := ["st", "nd", "rd", "th"]

/-- One ordinal item of the grammar: digits immediately followed by an
ordinal suffix; returns the consumed length. -/
def mdItemLen (s : List Char) : Option Nat :=
  let ds := s.takeWhile Char.isDigit
  if ds.length = 0 then none
  else
    match ordSuffixes.findSome?
        (fun suf => if suf.toList.isPrefixOf (s.drop ds.length)
                    then some suf.toList.length else none) with
    | some k => some (ds.length + k)
    | none => none

/-- Characters consumed by the greedy run of ordinal items with optional
commas, as in `(\d+(st|nd|rd|th),?)+`. -/
def mdRunLen : Nat → List Char → Nat
  | 0, _ => 0
  | fuel + 1, s =>
    match mdItemLen s with
    | none => 0
    | some n =>
      match s.drop n with
      | ',' :: s2 => n + 1 + mdRunLen fuel s2
      | _ => n + mdRunLen fuel (s.drop n)

/-- `\d\d:\d\d` at the front of `s` (always 5 characters when it matches). -/
def matchHMLen (s : List Char) : Option Nat :=
  match s with
  | a :: b :: c :: d :: e :: _ =>
    if a.isDigit ∧ b.isDigit ∧ c = ':' ∧ d.isDigit ∧ e.isDigit
    then some 5 else none
  | _ => none

/-- The separator `' ?'`: consume one space if present. -/
def optSpace : List Char → List Char
  | ' ' :: r => r
  | s => s

/-- The named groups captured by a successful match of `GROC_SCHEDULE_RE`. -/
structure GrocMatch where
  month_days : Option String
  days : Option String
  months : Option String
  time : Option String
deriving DecidableEq

/-- Tail of the month clause after `in `/`of `: the month token run. -/
def monthsTail (r : List Char) : Option (String × List Char) :=
  let n := tokRunLen MONTH_VALUES r.length r
  if n = 0 then none else some (String.mk (r.take n), r.drop n)

/-- The optional month clause `((in|of) (?P<months>((MONTH),?)+))?`. -/
def monthsClause (s : List Char) : Option (String × List Char) :=
  match dropLead "in " s with
  | some r => monthsTail r
  | none =>
    match dropLead "of " s with
    | some r => monthsTail r
    | none => none

/-- The time group without the `at ` alternative. -/
def timeNoAt (s : List Char) : Option String × List Char :=
  match matchHMLen s with
  | some _ => (some (String.mk (s.take 5)), s.drop 5)
  | none => (none, s)

/-- The optional time clause `((at )?(?P<time>\d\d:\d\d))?`. -/
def timeClause (s : List Char) : Option String × List Char :=
  match dropLead "at " s with
  | some r =>
    match matchHMLen r with
    | some _ => (some (String.mk (r.take 5)), r.drop 5)
    | none => timeNoAt s
  | none => timeNoAt s

/-- `GROC_SCHEDULE_RE.match`: the anchored pattern
`^(month_days)? ?(days)? ?((in|of) (months))? ?((at )?(time))? ?$`,
returning the captured groups on success and `none` when the whole string
does not match. -/
def matchGroc (str : String) : Option GrocMatch :=
  let s0 := str.toList
  let mdPair : Option String × List Char :=
    match dropLead "every" s0 with
    | some r => (some "every", r)
    | none =>
      let n := mdRunLen s0.length s0
      if n = 0 then (none, s0) else (some (String.mk (s0.take n)), s0.drop n)
  let s2 := optSpace mdPair.2
  let dPair : Option String × List Char :=
    let n := tokRunLen DAY_VALUES s2.length s2
    if n = 0 then (none, s2) else (some (String.mk (s2.take n)), s2.drop n)
  let s4 := optSpace dPair.2
  let moPair : Option String × List Char :=
    match monthsClause s4 with
    | some p => (some p.1, p.2)
    | none => (none, s4)
  let s6 := optSpace moPair.2
  let tPair := timeClause s6
  let s8 := optSpace tPair.2
  if s8.isEmpty then
    some { month_days := mdPair.1, days := dPair.1, months := moPair.1,
           time := tPair.1 }
  else none

/-- Time-of-day value, standing in for `datetime.time`. -/
structure TimeOfDay where
  hour : Nat
  minute : Nat
  second : Nat
deriving DecidableEq

/-- `datetime.time(hour, minute, second)` with its range validation
(raises `ValueError` out of range). -/
def mkTime (h m s : Nat) : Except PyExc TimeOfDay :=
  if h ≤ 23 ∧ m ≤ 59 ∧ s ≤ 59 then .ok ⟨h, m, s⟩ else .error .valueError

/-- The mutable attributes of a `GrocScheduler` instance (`startTime0`
models the `_start_time` attribute; the lazy `_time_spec` cache is external
state and is not modelled). -/
structure GrocState where
  ordinals : Option (Finset Nat)
  weekdays : Option (Finset Nat)
  months : Option (Finset Nat)
  monthdays : Option (Finset Nat)
  timestr : String
  timezone : Option String
  startTime0 : Option TimeOfDay
  string_repr : String
deriving DecidableEq

/-- `GrocScheduler.__init__` with all defaults. -/
def grocDefault : GrocState :=
  { ordinals := none, weekdays := none, months := none, monthdays := none,
    timestr := "00:00", timezone := none, startTime0 := none,
    string_repr := "every day of month" }

/-- `parse_number`: keep the digits of the token and convert with `int`;
`int('')` raises `ValueError`. -/
def parse_number (s : String) : Except PyExc Nat :=
  let ds := s.toList.filter Char.isDigit
  if ds.isEmpty then .error .valueError
  else .ok (ds.foldl (fun n c => 10 * n + (c.toNat - 48)) 0)

/-- `parse_number` over a token list, left to right, first failure wins. -/
def parseNumbers : List String → Except PyExc (List Nat)
  | [] => .ok []
  | k :: ks =>
    match parse_number k with
    | .error e => .error e
    | .ok v =>
      match parseNumbers ks with
      | .error e => .error e
      | .ok vs => .ok (v :: vs)

/-- Dict lookup over a token list, left to right; a missing key raises
`KeyError` exactly as the Python generator inside `set(...)` would. -/
def lookupAll (d : PyDict) : List String → Except PyExc (List Nat)
  | [] => .ok []
  | k :: ks =>
    match dictGet d k with
    | none => .error .keyError
    | some v =>
      match lookupAll d ks with
      | .error e => .error e
      | .ok vs => .ok (v :: vs)

/-- The weekday step of `parse`: `None`/`'day'` means unset, otherwise
split on commas and resolve each token through `CONVERT_DAYS_INT`. -/
def weekdaysOf (g : Option String) : Except PyExc (Option (Finset Nat)) :=
  if g = none ∨ g = some "day" then .ok none
  else
    match lookupAll CONVERT_DAYS_INT (pySplit ',' (g.getD "")) with
    | .error e => .error e
    | .ok vs => .ok (some vs.toFinset)

/-- The month step of `parse`: `None`/`'month'` means unset, otherwise
resolve through `CONVERT_MONTHS`. -/
def monthsOf (g : Option String) : Except PyExc (Option (Finset Nat)) :=
  if g = none ∨ g = some "month" then .ok none
  else
    match lookupAll CONVERT_MONTHS (pySplit ',' (g.getD "")) with
    | .error e => .error e
    | .ok vs => .ok (some vs.toFinset)

/-- The month-day/ordinal step of `parse`: skipped when the group is the
literal `'every'`; calling `.split` on an absent (`None`) group raises
`AttributeError`; otherwise the parsed values go to `monthdays` when
`weekdays` is unset and to `ordinals` when it is set. -/
def monthDaysStep (st : GrocState) (g : Option String) : Except PyExc GrocState :=
  if g = some "every" then .ok st
  else
    match g with
    | none => .error .attributeError
    | some md =>
      match parseNumbers (pySplit ',' md) with
      | .error e => .error e
      | .ok vs =>
        if st.weekdays = none then .ok { st with monthdays := some vs.toFinset }
        else .ok { st with ordinals := some vs.toFinset }

/-- The body of `parse` after a successful grammar match: resolve time,
weekdays, monthdays/ordinals and months in source order. -/
def parseGroups (st0 : GrocState) (m : GrocMatch) : Except PyExc GrocState :=
  let timestr :=
    match m.time with
    | none =>
      match st0.startTime0 with
      | none => "00:00"
      | some t => pad2 t.hour ++ ":" ++ pad2 t.minute
    | some t => t
  let st := { st0 with timestr := timestr }
  match weekdaysOf m.days with
  | .error e => .error e
  | .ok wd =>
    let st := { st with weekdays := wd, monthdays := none, ordinals := none }
    match monthDaysStep st m.month_days with
    | .error e => .error e
    | .ok st2 =>
      match monthsOf m.months with
      | .error e => .error e
      | .ok ms => .ok { st2 with months := ms }

/-- Dispatch on the match result: a failed match leaves `m = None` and the
subsequent `m.group` call raises `AttributeError`. -/
def parseAfterMatch (st : GrocState) :
    Option GrocMatch → Except PyExc GrocState
  | none => .error .attributeError
  | some m => parseGroups st m

/-- `GrocScheduler.parse`: record the string, match the lowercased input
against the grammar, then resolve the captured groups. -/
def GrocScheduler.parse (st0 : GrocState) (scheduler_str : String) :
    Except PyExc GrocState :=
  parseAfterMatch { st0 with string_repr := scheduler_str }
    (matchGroc (pyLower scheduler_str))

/-- `GrocScheduler.parse_legacy_days`: resolve the tokens through
`CONVERT_DAYS_INT` into `weekdays`, and set a non-default `string_repr`
unless the selection is all seven days. -/
def GrocScheduler.parse_legacy_days (st : GrocState) (days : List String) :
    Except PyExc GrocState :=
  match lookupAll CONVERT_DAYS_INT days with
  | .error e => .error e
  | .ok vs =>
    let st := { st with weekdays := some vs.toFinset }
    if st.weekdays ≠ some ({0, 1, 2, 3, 4, 5, 6} : Finset Nat) then
      .ok { st with string_repr := "every " ++ joinComma days ++ " of month" }
    else .ok st

/-- `int(s)` as used on the pieces of `timestr`. -/
def pyInt (s : String) : Except PyExc Nat :=
  let t := pyStrip s
  if t.isEmpty ∨ ¬(t.toList.all Char.isDigit) then .error .valueError
  else .ok (t.toList.foldl (fun n c => 10 * n + (c.toNat - 48)) 0)

/-- `pyInt` over a list of pieces. -/
def pyInts : List String → Except PyExc (List Nat)
  | [] => .ok []
  | k :: ks =>
    match pyInt k with
    | .error e => .error e
    | .ok v =>
      match pyInts ks with
      | .error e => .error e
      | .ok vs => .ok (v :: vs)

/-- The `start_time` getter `_get_start_time`: when `_start_time` is unset,
split `timestr` on `':'`, pad with zero seconds and build a time value;
when `_start_time` is set the function body has no `return` statement on
that path and Python returns `None`. -/
def GrocScheduler.get_start_time (st : GrocState) :
    Except PyExc (Option TimeOfDay) :=
  match st.startTime0 with
  | some _ => .ok none
  | none =>
    match pyInts (pySplit ':' (pyStrip st.timestr)) with
    | .error e => .error e
    | .ok hms0 =>
      let hms := hms0 ++ List.replicate (3 - hms0.length) 0
      match hms with
      | [h, mi, s] =>
        match mkTime h mi s with
        | .error e => .error e
        | .ok t => .ok (some t)
      | _ => .error .valueError

/-- The `start_time` setter `_set_start_time`. -/
def GrocScheduler.set_start_time (st : GrocState) (t : Option TimeOfDay) :
    GrocState :=
  { st with startTime0 := t }

/-- `ConstantScheduler.next_runs`: nothing while a run is outstanding,
otherwise stamp every built run with the current instant. -/
def ConstantScheduler.next_runs (now : Instant) (job : Job) : List JobRun :=
  if job.next_to_finish then []
  else job.build_runs.map (fun r => r.set_run_time now)

/-- `ConstantScheduler.job_setup`. -/
def ConstantScheduler.job_setup (job : Job) : Job :=
  { job with constant := true, queueing := false }

/-- `GrocScheduler.next_runs`: the reference instant is the newest history
run's time when there is history, else the current instant; every built run
is stamped with `GetMatch(reference)` (`getMatch` stands for the external
`self.time_spec.GetMatch`). -/
def GrocScheduler.next_runs (getMatch : Option Instant → Instant)
    (now : Instant) (job : Job) : List JobRun :=
  let start_time : Option Instant :=
    match job.runs with
    | [] => some now
    | r :: _ => r.run_time
  let run_time := getMatch start_time
  job.build_runs.map (fun r => r.set_run_time run_time)

/-- `GrocScheduler.job_setup`. -/
def GrocScheduler.job_setup (job : Job) : Job :=
  { job with queueing := true }

/-- `IntervalScheduler.next_runs`: stamp every built run with
`current_time() + interval`. -/
def IntervalScheduler.next_runs (interval : Instant) (now : Instant)
    (job : Job) : List JobRun :=
  let run_time := now + interval
  job.build_runs.map (fun r => r.set_run_time run_time)

/-- `IntervalScheduler.job_setup`. -/
def IntervalScheduler.job_setup (job : Job) : Job :=
  { job with queueing := false }

/-- Fixture: a job whose previous run is still outstanding. -/
def jobBusy : Job :=
  { runs := [], build_runs := [{ run_time := none }, { run_time := some 3 }],
    next_to_finish := true, constant := false, queueing := false }

/-- Fixture: a job with no outstanding run and two pending runs. -/
def jobIdle : Job :=
  { runs := [], build_runs := [{ run_time := none }, { run_time := some 3 }],
    next_to_finish := false, constant := false, queueing := false }

/-- Fixture: a job whose newest history run ran at instant 50. -/
def jobHist : Job :=
  { runs := [{ run_time := some 50 }], build_runs := [{ run_time := none }],
    next_to_finish := false, constant := false, queueing := false }

/-- Fixture: a job with no history, same pending runs as `jobHist`. -/
def jobFresh : Job :=
  { runs := [], build_runs := [{ run_time := none }],
    next_to_finish := false, constant := false, queueing := false }

/-- The scheduler state produced by `parse` on `"1st,15th of month"`. -/
def st4c : GrocState :=
  { ordinals := none, weekdays := none, months := none,
    monthdays := some ({1, 15} : Finset Nat), timestr := "00:00",
    timezone := none, startTime0 := none,
    string_repr := "1st,15th of month" }

/-- `monthDaysStep` preserves `weekdays`, and writes at most one of
`monthdays` (when `weekdays` is unset) or `ordinals` (when it is set). -/
theorem monthDaysStep_fields (st : GrocState) (g : Option String)
    (st2 : GrocState) (h : monthDaysStep st g = .ok st2) :
    st2.weekdays = st.weekdays ∧
    ((st2.ordinals = st.ordinals ∧ st2.monthdays = st.monthdays) ∨
     (st.weekdays = none ∧ st2.ordinals = st.ordinals ∧
        st2.monthdays ≠ none) ∨
     (st.weekdays ≠ none ∧ st2.monthdays = st.monthdays ∧
        st2.ordinals ≠ none)) := by
  unfold monthDaysStep at h
  split at h
  · simp only [Except.ok.injEq] at h
    subst h
    exact ⟨rfl, Or.inl ⟨rfl, rfl⟩⟩
  · split at h
    · simp at h
    · split at h
      · simp at h
      · split at h
        · rename_i hwd
          simp only [Except.ok.injEq] at h
          subst h
          exact ⟨rfl, Or.inr (Or.inl ⟨hwd, rfl, by simp⟩)⟩
        · rename_i hwd
          simp only [Except.ok.injEq] at h
          subst h
          exact ⟨rfl, Or.inr (Or.inr ⟨hwd, rfl, by simp⟩)⟩

/-- Claim C1: `ConstantScheduler.next_runs` returns the empty sequence when
`job.next_to_finish()` holds; otherwise it returns exactly the sequence
produced by `build_runs()`, every run stamped with the current instant. -/
theorem constantScheduler_next_runs_spec (now : Instant) (job : Job) :
    (job.next_to_finish = true → ConstantScheduler.next_runs now job = []) ∧
    (job.next_to_finish = false →
      ConstantScheduler.next_runs now job
        = job.build_runs.map (fun r => r.set_run_time now) ∧
      ∀ r ∈ ConstantScheduler.next_runs now job, r.run_time = some now) := by
  unfold ConstantScheduler.next_runs
  constructor
  · intro h
    simp [h]
  · intro h
    refine ⟨by simp [h], ?_⟩
    intro r hr
    simp only [h, Bool.false_eq_true, if_false, List.mem_map] at hr
    obtain ⟨x, _, rfl⟩ := hr
    rfl

/-- Witness for C1: concrete evaluation at a busy and an idle job. -/
theorem constantScheduler_next_runs_witness :
    ConstantScheduler.next_runs 5 jobBusy = [] ∧
    ConstantScheduler.next_runs 5 jobIdle
      = [{ run_time := some 5 }, { run_time := some 5 }] :=
  ⟨(constantScheduler_next_runs_spec 5 jobBusy).1 rfl,
   ((constantScheduler_next_runs_spec 5 jobIdle).2 rfl).1⟩

/-- Claim C2: `GrocScheduler.next_runs` uses the newest history run's time
as reference when history is non-empty and the current instant otherwise,
and stamps every built run with the matcher's result on that reference. -/
theorem grocScheduler_next_runs_spec (getMatch : Option Instant → Instant)
    (now : Instant) (job : Job) :
    (job.runs = [] →
      GrocScheduler.next_runs getMatch now job
        = job.build_runs.map (fun r => r.set_run_time (getMatch (some now))) ∧
      ∀ r ∈ GrocScheduler.next_runs getMatch now job,
        r.run_time = some (getMatch (some now))) ∧
    (∀ r0 rest, job.runs = r0 :: rest →
      GrocScheduler.next_runs getMatch now job
        = job.build_runs.map (fun r => r.set_run_time (getMatch r0.run_time)) ∧
      ∀ r ∈ GrocScheduler.next_runs getMatch now job,
        r.run_time = some (getMatch r0.run_time)) := by
  unfold GrocScheduler.next_runs
  constructor
  · intro h
    refine ⟨by rw [h], ?_⟩
    intro r hr
    rw [h] at hr
    simp only [List.mem_map] at hr
    obtain ⟨x, _, rfl⟩ := hr
    rfl
  · intro r0 rest h
    refine ⟨by rw [h], ?_⟩
    intro r hr
    rw [h] at hr
    simp only [List.mem_map] at hr
    obtain ⟨x, _, rfl⟩ := hr
    rfl

/-- Witness for C2: with matcher `fun t => t.getD 0 + 1`, a fresh job is
stamped from the clock (7 + 1) and a job with history from its newest
run time (50 + 1). -/
theorem grocScheduler_next_runs_witness :
    GrocScheduler.next_runs (fun t => t.getD 0 + 1) 7 jobFresh
      = [{ run_time := some 8 }] ∧
    GrocScheduler.next_runs (fun t => t.getD 0 + 1) 7 jobHist
      = [{ run_time := some 51 }] :=
  ⟨((grocScheduler_next_runs_spec (fun t => t.getD 0 + 1) 7 jobFresh).1 rfl).1,
   ((grocScheduler_next_runs_spec (fun t => t.getD 0 + 1) 7 jobHist).2
      { run_time := some 50 } [] rfl).1⟩

/-- Claim C3: `IntervalScheduler.next_runs` stamps every built run with
`current instant + interval`, independently of the job's run history. -/
theorem intervalScheduler_next_runs_spec (interval now : Instant) (job : Job) :
    IntervalScheduler.next_runs interval now job
      = job.build_runs.map (fun r => r.set_run_time (now + interval)) ∧
    (∀ r ∈ IntervalScheduler.next_runs interval now job,
      r.run_time = some (now + interval)) ∧
    (∀ job2 : Job, job2.build_runs = job.build_runs →
      IntervalScheduler.next_runs interval now job2
        = IntervalScheduler.next_runs interval now job) := by
  refine ⟨rfl, ?_, ?_⟩
  · intro r hr
    simp only [IntervalScheduler.next_runs, List.mem_map] at hr
    obtain ⟨x, _, rfl⟩ := hr
    rfl
  · intro job2 h
    simp only [IntervalScheduler.next_runs, h]

/-- Witness for C3: `interval = 300`, clock 1000, runs stamped 1300; a job
differing only in history yields the same result. -/
theorem intervalScheduler_next_runs_witness :
    IntervalScheduler.next_runs 300 1000 jobHist
      = [{ run_time := some 1300 }] ∧
    IntervalScheduler.next_runs 300 1000 jobFresh
      = IntervalScheduler.next_runs 300 1000 jobHist :=
  ⟨(intervalScheduler_next_runs_spec 300 1000 jobHist).1,
   (intervalScheduler_next_runs_spec 300 1000 jobHist).2.2 jobFresh rfl⟩

/-- Claim C4: every successful `parse` leaves `ordinals` and `monthdays`
never both set, `ordinals` unset whenever `weekdays` is unset, and
`monthdays` unset whenever `weekdays` is set. -/
theorem grocScheduler_parse_exclusion (st : GrocState) (s : String)
    (st' : GrocState) (h : GrocScheduler.parse st s = .ok st') :
    ¬(st'.ordinals ≠ none ∧ st'.monthdays ≠ none) ∧
    (st'.weekdays = none → st'.ordinals = none) ∧
    (st'.weekdays ≠ none → st'.monthdays = none) := by
  unfold GrocScheduler.parse at h
  cases hm : matchGroc (pyLower s) with
  | none =>
    rw [hm] at h
    simp [parseAfterMatch] at h
  | some m =>
    rw [hm] at h
    simp only [parseAfterMatch, parseGroups] at h
    split at h
    · simp at h
    · rename_i wd hwd
      split at h
      · simp at h
      · rename_i st2 hst2
        split at h
        · simp at h
        · rename_i ms hms
          simp only [Except.ok.injEq] at h
          subst h
          obtain ⟨hw, hcases⟩ := monthDaysStep_fields _ _ _ hst2
          rcases hcases with ⟨ho, hm⟩ | ⟨hwn, ho, hm⟩ | ⟨hwn, hm, ho⟩
          · exact ⟨fun hc => hc.2 hm, fun _ => ho, fun _ => hm⟩
          · refine ⟨fun hc => hc.1 ho, fun _ => ho, fun hne => ?_⟩
            rw [hw] at hne
            exact absurd hwn hne
          · refine ⟨fun hc => hc.2 hm, fun heq => ?_, fun _ => hm⟩
            rw [hw] at heq
            exact absurd heq hwn

/-- Witness for C4: the concrete parse of `"1st,15th of month"` succeeds
with `monthdays = {1, 15}` and satisfies the exclusion. -/
theorem grocScheduler_parse_exclusion_witness :
    GrocScheduler.parse grocDefault "1st,15th of month" = .ok st4c ∧
    ¬(st4c.ordinals ≠ none ∧ st4c.monthdays ≠ none) :=
  ⟨by decide,
   (grocScheduler_parse_exclusion grocDefault "1st,15th of month" st4c
      (by decide)).1⟩

/-- Counterexample for C5: on a string the grammar rejects, `parse` raises
`AttributeError` (the failed match returns `None` and `.group` is called on
it), not the `ParseError` the claim names. -/
theorem grocScheduler_parse_no_parseError :
    matchGroc (pyLower "!!!") = none ∧
    GrocScheduler.parse grocDefault "!!!" = .error .attributeError ∧
    (Except.error PyExc.attributeError : Except PyExc GrocState)
      ≠ .error .parseError := by decide

/-- Claim C5 as amended: every input whose lowercase form the grammar does
not match from start to end makes `parse` fail with an `AttributeError`
exception (no spec record is produced, so no malformed string is accepted);
the source defines no `ParseError`. -/
theorem grocScheduler_parse_nonmatch (st : GrocState) (s : String)
    (h : matchGroc (pyLower s) = none) :
    GrocScheduler.parse st s = .error .attributeError := by
  unfold GrocScheduler.parse
  rw [h]
  rfl

/-- Witness for the amended C5 at the concrete input `"not a schedule"`. -/
theorem grocScheduler_parse_nonmatch_witness :
    GrocScheduler.parse grocDefault "not a schedule"
      = .error .attributeError :=
  grocScheduler_parse_nonmatch grocDefault "not a schedule" (by decide)

/-- Claim C6: the grammar accepts the bare time `"09:00"` (no ordinal, no
weekday, no month), but `parse` then raises `AttributeError` by calling
`.split` on the absent `month_days` group instead of succeeding with all
fields unset. -/
theorem grocScheduler_parse_bare_time :
    matchGroc (pyLower "09:00")
      = some { month_days := none, days := none, months := none,
               time := some "09:00" } ∧
    GrocScheduler.parse grocDefault "09:00" = .error .attributeError := by
  decide

/-- Claim C7: `parse_legacy_days(["mon","wed","fri"])` sets
`weekdays = {0, 2, 4}` (Monday = 0, from `calendar.day_name` order), not
the `{1, 3, 5}` of the documented 0=Sunday convention, and sets a
non-default `display_text`. -/
theorem grocScheduler_parse_legacy_days_eval :
    (GrocScheduler.parse_legacy_days grocDefault ["mon", "wed", "fri"]).map
        (fun st => (st.weekdays, st.string_repr))
      = .ok (some ({0, 2, 4} : Finset Nat), "every mon,wed,fri of month") ∧
    ({0, 2, 4} : Finset Nat) ≠ ({1, 3, 5} : Finset Nat) ∧
    "every mon,wed,fri of month" ≠ grocDefault.string_repr := by decide

/-- Counterexample for C8: upper-case month spellings are never inserted
into `CONVERT_MONTHS`, so their lookup fails instead of returning the
canonical full name's index. -/
theorem convert_months_case_counterexample :
    dictGet CONVERT_MONTHS "JANUARY" = none ∧
    dictGet CONVERT_MONTHS "JAN" = none ∧
    dictGet CONVERT_MONTHS "January" = some 1 := by decide

/-- Claim C8 as amended: for every spelling actually present in the tables
(weekday names, abbreviations and one- and two-letter codes in original,
lower and upper case; month names and abbreviations in original and lower
case only), lookup returns the same canonical index as the canonical full
name. -/
theorem name_tables_canonical :
    (∀ p ∈ CONVERT_DAYS_INT,
      dictGet CONVERT_DAYS_INT p.1 = some p.2 ∧
      dictGet CONVERT_DAYS_INT (day_name.getD p.2 "") = some p.2) ∧
    (∀ p ∈ CONVERT_MONTHS,
      dictGet CONVERT_MONTHS p.1 = some p.2 ∧
      dictGet CONVERT_MONTHS (month_name.getD (p.2 - 1) "") = some p.2) := by
  decide

/-- Witness for the amended C8 at concrete table entries. -/
theorem name_tables_canonical_witness :
    dictGet CONVERT_DAYS_INT "mon" = some 0 ∧
    dictGet CONVERT_DAYS_INT "Monday" = some 0 ∧
    dictGet CONVERT_MONTHS "jan" = some 1 ∧
    dictGet CONVERT_MONTHS "January" = some 1 :=
  ⟨(name_tables_canonical.1 ("mon", 0) (by decide)).1,
   (name_tables_canonical.1 ("Monday", 0) (by decide)).1,
   (name_tables_canonical.2 ("jan", 1) (by decide)).1,
   (name_tables_canonical.2 ("January", 1) (by decide)).1⟩

/-- Claim C9: each policy's `job_setup` sets the flags the policy requires
(Constant: constant and not queueing; Groc: queueing; Interval: not
queueing) and is idempotent. -/
theorem schedulers_job_setup_spec (job : Job) :
    ((ConstantScheduler.job_setup job).constant = true ∧
     (ConstantScheduler.job_setup job).queueing = false ∧
     ConstantScheduler.job_setup (ConstantScheduler.job_setup job)
       = ConstantScheduler.job_setup job) ∧
    ((GrocScheduler.job_setup job).queueing = true ∧
     GrocScheduler.job_setup (GrocScheduler.job_setup job)
       = GrocScheduler.job_setup job) ∧
    ((IntervalScheduler.job_setup job).queueing = false ∧
     IntervalScheduler.job_setup (IntervalScheduler.job_setup job)
       = IntervalScheduler.job_setup job) :=
  ⟨⟨rfl, rfl, rfl⟩, ⟨rfl, rfl⟩, ⟨rfl, rfl⟩⟩

/-- Claim C10: after storing a start time the getter returns `None` (the
Python function only returns inside its `if self._start_time is None`
branch), so get-after-set does not yield the stored value; with no stored
start time it does decompose `timestr` with a zero second. -/
theorem grocScheduler_start_time_get_set :
    GrocScheduler.get_start_time
        (GrocScheduler.set_start_time grocDefault
          (some { hour := 10, minute := 30, second := 0 })) = .ok none ∧
    ((Except.ok none : Except PyExc (Option TimeOfDay))
      ≠ .ok (some { hour := 10, minute := 30, second := 0 })) ∧
    GrocScheduler.get_start_time grocDefault
      = .ok (some { hour := 0, minute := 0, second := 0 }) := by decide

end Tron
